import Mathlib

/-!
Verification development for the GameTranslationTool repository.

We build a shallow embedding of the parts of the program that the
specification talks about: the translation backend with its in-memory
cache (src/translate_backend.py), the window capture fallback logic
(src/capture.py), the recognition postprocessing (src/ocr_backend.py),
the capture worker loop (src/main.py, CaptureWorker), the window
enumerator (src/capture.py, WindowLister.list_windows), and the stop
procedures of the workers (src/frida_worker.py and src/main.py).

External collaborators (the HTTP library, the recognition engine, the
window system, wall-clock time) are passed in as explicit parameters so
every definition is executable.
-/

/-! ## Translation backend (src/translate_backend.py) -/

/-- Outcome of the single `requests.get` call made by `google_translate`:
either the transport layer raised an exception, or an HTTP response with
a status code and a body string came back. -/
inductive ProviderResult where
  | transportError
  | response (status : Nat) (body : String)
deriving DecidableEq, Repr

/-- Python `str.strip()`: remove leading and trailing whitespace. -/
def pyStrip (s : String) : String :=
  String.mk
    (((s.data.dropWhile Char.isWhitespace).reverse.dropWhile
        Char.isWhitespace).reverse)

/-- Smallest index at which `needle` occurs in the character list, as in
Python `str.index` (which raises when the needle is absent, modelled as
`none`). -/
def findOccur (needle : List Char) : List Char → Option Nat
  | [] => if needle.isPrefixOf ([] : List Char) then some 0 else none
  | c :: t =>
    if needle.isPrefixOf (c :: t) then some 0
    else (findOccur needle t).map (· + 1)

/-- Python `content.index(needle)` as an `Option`. -/
def pyIndex (content needle : String) : Option Nat :=
  findOccur needle.data content.data

/-- Python `content.index(needle, start)` as an `Option`. -/
def pyIndexFrom (content needle : String) (start : Nat) : Option Nat :=
  (findOccur needle.data (content.data.drop start)).map (· + start)

/-- Python slice `content[start:stop]`. -/
def pySlice (content : String) (start stop : Nat) : String :=
  String.mk ((content.data.drop start).take (stop - start))

/-- Shallow embedding of `google_translate(text, src, dst)` from
src/translate_backend.py.  `unescape` stands for the external
`html.unescape`; `provider` maps the request parameters (the lowercased
language codes and the text, which determine the query URL) to the
outcome of the `requests.get` call.  The returned `Bool` records whether
the provider was contacted (the `requests.get` line was executed); the
`Except` is the function result, `Except.error` meaning an exception
propagated to the caller.

The source checks `if not text.strip(): return ""` before building the
request; a non-200 status returns the original text; the body is parsed
by locating the 18-character marker and the following angle bracket,
with any parse failure caught and the original text returned. -/
def google_translate (unescape : String → String)
    (provider : String → String → String → ProviderResult)
    (text src dst : String) : Bool × Except Unit String :=
  if pyStrip text = "" then (false, Except.ok "")
  else
    match provider src.toLower dst.toLower text with
    | ProviderResult.transportError => (true, Except.error ())
    | ProviderResult.response status content =>
      if status ≠ 200 then (true, Except.ok text)
      else
        match pyIndex content "result-container\">" with
        | none => (true, Except.ok text)
        | some i =>
          let start := i + 18
          match pyIndexFrom content "<" start with
          | none => (true, Except.ok text)
          | some e => (true, Except.ok (unescape (pySlice content start e)))

/-- The cache key `f"{src_lang}|{dst_lang}|{text}"` built by
`translate_text`. -/
def transKey (src_lang dst_lang text : String) : String :=
  src_lang ++ "|" ++ dst_lang ++ "|" ++ text

/-- Result of one `translate_text` call: the value returned to the
caller (or the propagated exception), the cache after the call, and
whether the provider was contacted. -/
structure TranslateCall where
  result : Except Unit String
  cache : List (String × String)
  contacted : Bool
deriving Repr

/-- Shallow embedding of `translate_text(src_lang, dst_lang, text)` from
src/translate_backend.py.  The module-level dict `_translation_cache`
is threaded explicitly as an association list (later bindings shadow
older ones, matching dict assignment for lookups).  On a cache hit the
cached value is returned and nothing else happens; on a miss,
`google_translate` runs and — only if it returns rather than raising —
its result is stored under the key. -/
def translate_text (unescape : String → String)
    (provider : String → String → String → ProviderResult)
    (cache : List (String × String)) (src_lang dst_lang text : String) :
    TranslateCall :=
  let key := transKey src_lang dst_lang text
  match cache.lookup key with
  | some v => ⟨Except.ok v, cache, false⟩
  | none =>
    match google_translate unescape provider text src_lang dst_lang with
    | (contacted, Except.error e) => ⟨Except.error e, cache, contacted⟩
    | (contacted, Except.ok result) =>
      ⟨Except.ok result, (key, result) :: cache, contacted⟩

/-! ## Claims about the translation backend (C1, C2, C10) -/

/-- Claim C1, counterexample: when the transport layer fails (the
`requests.get` call raises, e.g. provider unreachable), `translate_text`
propagates the exception to the caller instead of returning the original
text: the `requests.get` line in `google_translate` sits outside the
try/except block, and `translate_text` has no handler either. -/
theorem translate_text_transport_raises :
    (translate_text id (fun _ _ _ => ProviderResult.transportError) []
        "en" "ja" "hello").result = Except.error () := rfl

/-- Claim C1 (amended): on a provider response with non-200 status, or a
200 response whose body lacks the result-container marker (parse
failure), the caller receives the original text back; but on a transport
failure the exception propagates to the caller. -/
theorem translate_text_error_behavior (unescape : String → String)
    (st : Nat) (body : String) (cache : List (String × String))
    (src dst text : String)
    (hmiss : cache.lookup (transKey src dst text) = none)
    (htext : pyStrip text ≠ "") :
    (translate_text unescape (fun _ _ _ => ProviderResult.transportError)
        cache src dst text).result = Except.error () ∧
    (st ≠ 200 →
      (translate_text unescape (fun _ _ _ => ProviderResult.response st body)
          cache src dst text).result = Except.ok text) ∧
    (pyIndex body "result-container\">" = none →
      (translate_text unescape (fun _ _ _ => ProviderResult.response 200 body)
          cache src dst text).result = Except.ok text) := by
  refine ⟨?_, ?_, ?_⟩
  · simp [translate_text, hmiss, google_translate, htext]
  · intro hst
    simp [translate_text, hmiss, google_translate, htext, hst]
  · intro hparse
    simp [translate_text, hmiss, google_translate, htext, hparse]

/-- Witness for the amended C1 theorem at a concrete input. -/
theorem translate_text_error_behavior_witness :
    (translate_text id (fun _ _ _ => ProviderResult.transportError) []
        "en" "ja" "hola").result = Except.error () :=
  (translate_text_error_behavior id 500 "x" [] "en" "ja" "hola" rfl
    (by decide)).1

/-- Claim C2, counterexample: after a provider failure (here an HTTP 500
response) the substituted original text IS stored in the cache, and a
second call with the same (src, dst, text) triple does not contact the
provider again — it returns the cached fallback instead of retrying. -/
theorem translate_text_failure_cached :
    (translate_text id (fun _ _ _ => ProviderResult.response 500 "") []
        "en" "ja" "hi").cache = [("en|ja|hi", "hi")] ∧
    (translate_text id (fun _ _ _ => ProviderResult.response 500 "")
        (translate_text id (fun _ _ _ => ProviderResult.response 500 "") []
          "en" "ja" "hi").cache "en" "ja" "hi").contacted = false ∧
    (translate_text id (fun _ _ _ => ProviderResult.response 500 "")
        (translate_text id (fun _ _ _ => ProviderResult.response 500 "") []
          "en" "ja" "hi").cache "en" "ja" "hi").result = Except.ok "hi" :=
  ⟨rfl, rfl, rfl⟩

/-- Claim C2 (amended): when the provider fails with a non-200 status or
an unparseable 200 body and the original text is substituted, that
substituted text is stored in the cache, and a subsequent call with the
same triple returns the cached substitution without contacting the
provider; only a transport-failure exception leaves the cache unchanged
(so only that failure mode is retried). -/
theorem translate_text_failure_caching (unescape : String → String)
    (st : Nat) (body : String) (cache : List (String × String))
    (src dst text : String)
    (p2 : String → String → String → ProviderResult)
    (hmiss : cache.lookup (transKey src dst text) = none)
    (htext : pyStrip text ≠ "")
    (hfail : st ≠ 200 ∨ (st = 200 ∧ pyIndex body "result-container\">" = none)) :
    ((translate_text unescape (fun _ _ _ => ProviderResult.response st body)
        cache src dst text).result = Except.ok text ∧
     (translate_text unescape (fun _ _ _ => ProviderResult.response st body)
        cache src dst text).cache = (transKey src dst text, text) :: cache) ∧
    (translate_text unescape p2
        ((transKey src dst text, text) :: cache) src dst text
      = ⟨Except.ok text, (transKey src dst text, text) :: cache, false⟩) ∧
    (translate_text unescape (fun _ _ _ => ProviderResult.transportError)
        cache src dst text).cache = cache := by
  refine ⟨⟨?_, ?_⟩, ?_, ?_⟩
  · rcases hfail with hst | ⟨hst, hparse⟩
    · simp [translate_text, hmiss, google_translate, htext, hst]
    · simp [translate_text, hmiss, google_translate, htext, hst, hparse]
  · rcases hfail with hst | ⟨hst, hparse⟩
    · simp [translate_text, hmiss, google_translate, htext, hst]
    · simp [translate_text, hmiss, google_translate, htext, hst, hparse]
  · simp [translate_text, List.lookup]
  · simp [translate_text, hmiss, google_translate, htext]

/-- Witness for the amended C2 theorem at a concrete input. -/
theorem translate_text_failure_caching_witness :
    (translate_text id (fun _ _ _ => ProviderResult.response 404 "nope") []
        "ja" "en" "konnichiwa").cache
      = (transKey "ja" "en" "konnichiwa", "konnichiwa") :: [] :=
  ((translate_text_failure_caching id 404 "nope" [] "ja" "en" "konnichiwa"
    (fun _ _ _ => ProviderResult.transportError) rfl (by decide)
    (Or.inl (by decide))).1).2

/-- Claim C10: for any text whose stripped form is empty, and any
language pair, `translate_text` returns the empty string (not the
original text), never contacts the provider, and stores the empty
result in the cache under the triple's key. -/
theorem translate_text_whitespace (unescape : String → String)
    (provider : String → String → String → ProviderResult)
    (cache : List (String × String)) (src dst text : String)
    (hws : pyStrip text = "")
    (hmiss : cache.lookup (transKey src dst text) = none) :
    translate_text unescape provider cache src dst text
      = ⟨Except.ok "", (transKey src dst text, "") :: cache, false⟩ := by
  simp [translate_text, hmiss, google_translate, hws]

/-- Witness for the C10 theorem at a concrete input. -/
theorem translate_text_whitespace_witness :
    translate_text id (fun _ _ _ => ProviderResult.transportError) []
        "en" "ja" " "
      = ⟨Except.ok "", [(transKey "en" "ja" " ", "")], false⟩ :=
  translate_text_whitespace id (fun _ _ _ => ProviderResult.transportError)
    [] "en" "ja" " " (by decide) rfl

/-! ## Cache key structure (C8) -/

/-- Splitting a character list at a separator is unambiguous when the
part before the separator does not contain it. -/
theorem append_sep_inj (sep : Char) :
    ∀ (xs1 xs2 ys1 ys2 : List Char), sep ∉ xs1 → sep ∉ xs2 →
      xs1 ++ sep :: ys1 = xs2 ++ sep :: ys2 → xs1 = xs2 ∧ ys1 = ys2 := by
  intro xs1
  induction xs1 with
  | nil =>
    intro xs2 ys1 ys2 _ h2 h
    cases xs2 with
    | nil => simpa using h
    | cons b bs =>
      exfalso
      simp only [List.nil_append, List.cons_append, List.cons.injEq] at h
      exact h2 (by rw [h.1]; exact List.mem_cons_self b bs)
  | cons a as ih =>
    intro xs2 ys1 ys2 h1 h2 h
    cases xs2 with
    | nil =>
      exfalso
      simp only [List.nil_append, List.cons_append, List.cons.injEq] at h
      exact h1 (by rw [← h.1]; exact List.mem_cons_self a as)
    | cons b bs =>
      simp only [List.cons_append, List.cons.injEq] at h
      have h1t : sep ∉ as := fun hx => h1 (List.mem_cons_of_mem a hx)
      have h2t : sep ∉ bs := fun hx => h2 (List.mem_cons_of_mem b hx)
      obtain ⟨hab, ht⟩ := h
      obtain ⟨hx, hy⟩ := ih bs ys1 ys2 h1t h2t ht
      exact ⟨by rw [hab, hx], hy⟩

/-- The character data of a cache key, in separator-split form. -/
theorem transKey_data (s d t : String) :
    (transKey s d t).data = s.data ++ '|' :: (d.data ++ '|' :: t.data) := by
  have hp : ("|" : String).data = ['|'] := rfl
  simp [transKey, hp, List.append_assoc]

/-- Claim C8, counterexample: the cache key is the pipe-joined string,
so the distinct triples ("a", "b|c", "x") and ("a|b", "c", "x") share
the key "a|b|c|x"; a value stored by a translate call for the first
triple is then returned by a lookup for the second triple without
contacting the provider. -/
theorem transKey_collision :
    transKey "a" "b|c" "x" = transKey "a|b" "c" "x" ∧
    (("a", "b|c", "x") : String × String × String) ≠ ("a|b", "c", "x") ∧
    (translate_text id (fun _ _ _ => ProviderResult.transportError)
        (translate_text id
          (fun _ _ _ =>
            ProviderResult.response 200 "result-container\">HELLO</div>")
          [] "a" "b|c" "x").cache
        "a|b" "c" "x").result = Except.ok "HELLO" ∧
    (translate_text id (fun _ _ _ => ProviderResult.transportError)
        (translate_text id
          (fun _ _ _ =>
            ProviderResult.response 200 "result-container\">HELLO</div>")
          [] "a" "b|c" "x").cache
        "a|b" "c" "x").contacted = false :=
  ⟨rfl, by decide, rfl, rfl⟩

/-- Claim C8 (amended): cache keys are the pipe-joined strings
`src|dst|text`; two distinct triples receive distinct keys whenever the
language codes contain no pipe character, but triples whose language
codes contain a pipe can collide. -/
theorem transKey_inj (s1 d1 t1 s2 d2 t2 : String)
    (hs1 : '|' ∉ s1.data) (hd1 : '|' ∉ d1.data)
    (hs2 : '|' ∉ s2.data) (hd2 : '|' ∉ d2.data)
    (h : transKey s1 d1 t1 = transKey s2 d2 t2) :
    s1 = s2 ∧ d1 = d2 ∧ t1 = t2 := by
  have hdata : (transKey s1 d1 t1).data = (transKey s2 d2 t2).data := by
    rw [h]
  rw [transKey_data, transKey_data] at hdata
  obtain ⟨h1, hrest⟩ :=
    append_sep_inj '|' s1.data s2.data _ _ hs1 hs2 hdata
  obtain ⟨h2, h3⟩ :=
    append_sep_inj '|' d1.data d2.data _ _ hd1 hd2 hrest
  refine ⟨?_, ?_, ?_⟩
  · cases s1; cases s2; exact congrArg String.mk h1
  · cases d1; cases d2; exact congrArg String.mk h2
  · cases t1; cases t2; exact congrArg String.mk h3

/-- Witness for the amended C8 theorem at concrete pipe-free codes. -/
theorem transKey_inj_witness :
    ("en" : String) = "en" ∧ ("ja" : String) = "ja" ∧
      ("hi" : String) = "hi" :=
  transKey_inj "en" "ja" "hi" "en" "ja" "hi" (by decide) (by decide)
    (by decide) (by decide) rfl

/-! ## Window capture (src/capture.py) -/

/-- A captured frame, as the flattened numeric pixel buffer that the
validity heuristic inspects (`np.asarray(pil_img)`). -/
structure Frame where
  pixels : List Int
deriving DecidableEq, Repr

/-- Population variance of the pixel values, as computed by
`numpy.ndarray.var` (mean of squared deviations from the mean). -/
def pixelVariance (xs : List Int) : Rat :=
  if xs.length = 0 then 0
  else
    let n : Rat := xs.length
    let mean : Rat := (xs.map (fun x => (x : Rat))).sum / n
    ((xs.map (fun x => ((x : Rat) - mean) ^ 2)).sum) / n

/-- Shallow embedding of `_looks_invalid` from src/capture.py: a frame
is rejected when it has no pixels or its pixel-value variance is below
the fixed threshold 50. -/
def looks_invalid (f : Frame) : Bool :=
  if f.pixels.isEmpty then true
  else decide (pixelVariance f.pixels < 50)

/-- Python `a or b` on optional frames: the first operand if non-null,
else the second. -/
def pyOrOpt (a b : Option Frame) : Option Frame :=
  match a with
  | some x => some x
  | none => b

/-- A strategy result passes the heuristic when a frame was produced
and it does not look invalid. -/
def frameValid (o : Option Frame) : Bool :=
  match o with
  | none => false
  | some f => ! looks_invalid f

/-- Shallow embedding of the Windows path of `capture_window_image`
(src/capture.py): try BitBlt and return its frame if it looks valid;
try DXGI and return its frame if it looks valid; otherwise the source
executes `return img or img2`. -/
def capture_window_image (img img2 : Option Frame) : Option Frame :=
  if frameValid img then img
  else if frameValid img2 then img2
  else pyOrOpt img img2

/-- Shallow embedding of the macOS path of `capture_window_image`: the
Quartz window grab is returned if it looks valid; otherwise the result
of the full-screen `ImageGrab.grab()` (or `none` if that raised) is
returned without any validity check. -/
def capture_window_image_mac (img grab : Option Frame) : Option Frame :=
  if frameValid img then img else grab

/-- The capture policy exactly as the specification words it, for the
two ordered Windows strategies: the first strategy frame that passes
the heuristic; if none pass, the LAST non-null frame obtained; else
none. -/
def capture_policy_spec (img img2 : Option Frame) : Option Frame :=
  if frameValid img then img
  else if frameValid img2 then img2
  else
    match img2 with
    | some j => some j
    | none => img

/-- First strategy result that passes the heuristic, over an ordered
strategy-result list. -/
def firstValidFrame : List (Option Frame) → Option Frame
  | [] => none
  | o :: t => if frameValid o then o else firstValidFrame t

/-- First non-null frame obtained, over an ordered strategy-result
list. -/
def firstObtainedFrame : List (Option Frame) → Option Frame
  | [] => none
  | some f :: _ => some f
  | none :: t => firstObtainedFrame t

/-- The amended capture policy: the first strategy frame passing the
heuristic; if none pass, the FIRST non-null frame obtained; else
none. -/
def capture_policy_amended (strategies : List (Option Frame)) :
    Option Frame :=
  match firstValidFrame strategies with
  | some f => some f
  | none => firstObtainedFrame strategies

/-- An all-zero 2x2 frame: variance 0, fails the heuristic. -/
def blackFrame : Frame := ⟨[0, 0, 0, 0]⟩

/-- An all-one 2x2 frame: variance 0, fails the heuristic. -/
def flatGrayFrame : Frame := ⟨[1, 1, 1, 1]⟩

/-- Claim C3, counterexample: when both Windows strategies produce
frames and both fail the validity heuristic, `capture_window_image`
returns the FIRST frame obtained (`img or img2` in the source), not the
last non-null frame as the claim states. -/
theorem capture_first_not_last :
    capture_window_image (some blackFrame) (some flatGrayFrame)
        = some blackFrame ∧
    capture_policy_spec (some blackFrame) (some flatGrayFrame)
        = some flatGrayFrame ∧
    blackFrame ≠ flatGrayFrame := by
  have hb : looks_invalid blackFrame = true := by
    simp [looks_invalid, blackFrame, pixelVariance]
  have hg : looks_invalid flatGrayFrame = true := by
    simp [looks_invalid, flatGrayFrame, pixelVariance]
    norm_num
  refine ⟨?_, ?_, by decide⟩
  · simp [capture_window_image, frameValid, hb, hg, pyOrOpt]
  · simp [capture_policy_spec, frameValid, hb, hg]

/-- Claim C3 (amended): on Windows, capture returns the first strategy
frame that passes the heuristic, otherwise the first (not last)
non-null frame obtained, otherwise none; on macOS an invalid window
grab is never used as a fallback — the full-screen grab result is
returned unvalidated instead. -/
theorem capture_window_image_characterization
    (img img2 grab : Option Frame) :
    capture_window_image img img2 = capture_policy_amended [img, img2] ∧
    capture_window_image_mac img grab
      = (match firstValidFrame [img] with
         | some f => some f
         | none => grab) := by
  constructor
  · cases img with
    | none =>
      cases img2 with
      | none => rfl
      | some j =>
        by_cases hj : looks_invalid j <;>
          simp [capture_window_image, capture_policy_amended,
            firstValidFrame, firstObtainedFrame, pyOrOpt, frameValid, hj]
    | some i =>
      by_cases hi : looks_invalid i
      · cases img2 with
        | none =>
          simp [capture_window_image, capture_policy_amended,
            firstValidFrame, firstObtainedFrame, pyOrOpt, frameValid, hi]
        | some j =>
          by_cases hj : looks_invalid j <;>
            simp [capture_window_image, capture_policy_amended,
              firstValidFrame, firstObtainedFrame, pyOrOpt, frameValid,
              hi, hj]
      · simp [capture_window_image, capture_policy_amended,
          firstValidFrame, firstObtainedFrame, pyOrOpt, frameValid, hi]
  · cases img with
    | none => rfl
    | some i =>
      by_cases hi : looks_invalid i <;>
        simp [capture_window_image_mac, firstValidFrame, frameValid, hi]

/-! ## Recognition postprocessing (src/ocr_backend.py) -/

/-- One postprocessed recognition region: stripped text, axis-aligned
bounding box (x, y, w, h), and the fixed language tag. -/
structure OcrEntry where
  text : String
  bbox : Int × Int × Int × Int
  lang : String
deriving DecidableEq, Repr

/-- The filters and envelope computation applied to one raw engine item
by the loop in `ocr_image_data`: whitespace-only text is dropped, an
empty polygon raises inside the try and is skipped, the bounding box is
the axis-aligned min/max envelope of the polygon, and boxes narrower or
shorter than 5 px are dropped as noise. -/
def processOcrItem (bbox : List (Int × Int)) (text : String) :
    Option OcrEntry :=
  if pyStrip text = "" then none
  else
    match bbox with
    | [] => none
    | p :: ps =>
      let x := (ps.map Prod.fst).foldl min p.1
      let y := (ps.map Prod.snd).foldl min p.2
      let xmax := (ps.map Prod.fst).foldl max p.1
      let ymax := (ps.map Prod.snd).foldl max p.2
      let w := xmax - x
      let h := ymax - y
      if w < 5 ∨ h < 5 then none
      else some ⟨pyStrip text, (x, y, w, h), "unknown"⟩

/-- Shallow embedding of the postprocessing in `ocr_image_data`
(src/ocr_backend.py), as a function of the raw engine result list of
(polygon, text, confidence) items; the frame preprocessing, the debug
artifact save and the engine call itself are external to it. -/
def ocr_image_data (result : List (List (Int × Int) × String × Rat)) :
    List OcrEntry :=
  result.filterMap (fun item => processOcrItem item.1 item.2.1)

/-- Claim C4: on the synthetic engine output, postprocessing drops the
empty-text entry and the 3x3 box, and returns exactly one region with
text "OK" and bounding box (0, 0, 20, 20), the axis-aligned envelope of
its polygon. -/
theorem ocr_image_data_synthetic :
    ocr_image_data
        [([(0, 0), (10, 0), (10, 10), (0, 10)], "", 9 / 10),
         ([(0, 0), (3, 0), (3, 3), (0, 3)], "Hi", 9 / 10),
         ([(0, 0), (20, 0), (20, 20), (0, 20)], "OK", 9 / 10)]
      = [⟨"OK", (0, 0, 20, 20), "unknown"⟩] := by decide

/-! ## Capture worker loop (src/main.py, CaptureWorker) -/

/-- The configuration a `CaptureWorker` is constructed with: the OCR
toggle and the two intervals in seconds.  `CaptureWorker.__init__`
clamps `interval_ms` to at least 60 and `ocr_every_ms` to at least 500
and divides by 1000. -/
structure CaptureWorkerCfg where
  enable_ocr : Bool
  interval : Rat
  ocr_interval : Rat
deriving Repr

/-- Shallow embedding of `CaptureWorker.__init__` (the timing-relevant
parameters; the window handle is opaque to the loop's logic). -/
def mkCaptureWorker (interval_ms ocr_every_ms : Int) (enable_ocr : Bool) :
    CaptureWorkerCfg :=
  ⟨enable_ocr, ((max 60 interval_ms : Int) : Rat) / 1000,
    ((max 500 ocr_every_ms : Int) : Rat) / 1000⟩

/-- Events the worker emits through its Qt signals. -/
inductive WorkerEvent where
  | frame_ready (f : Frame)
  | ocr_ready (d : List OcrEntry)
deriving DecidableEq, Repr

/-- The external observations of one iteration of the `while` loop in
`CaptureWorker.run`: the tick's start wall time, the result of
`capture_window_image`, the outcome of `ocr_image_data` (error = the
exception the `except` clause catches), and the elapsed work time `dt`
measured after the emit. -/
structure TickInput where
  start : Rat
  img : Option Frame
  ocrOutcome : Except Unit (List OcrEntry)
  dt : Rat
deriving Repr

/-- What one loop iteration produces: the emitted events in order, and
the duration passed to `time.sleep` (0 when no sleep happens). -/
structure TickOutput where
  events : List WorkerEvent
  sleep : Rat
deriving Repr

/-- The sleep computation at the bottom of the loop body:
`sleep_t = self.interval - dt; if sleep_t > 0: time.sleep(sleep_t)`. -/
def tickSleep (cfg : CaptureWorkerCfg) (t : TickInput) : Rat :=
  let sleep_t := cfg.interval - t.dt
  if sleep_t > 0 then sleep_t else 0

/-- The event-emission part of one loop iteration of
`CaptureWorker.run`, returning the events and the updated `last_ocr`:
a frame event whenever capture produced an image, then — only when OCR
is enabled and at least `ocr_interval` elapsed since `last_ocr` — an
OCR event on engine success (the engine exception is caught and only
logged), with `last_ocr` updated to the tick start either way. -/
def tickEvents (cfg : CaptureWorkerCfg) (last_ocr : Rat) (t : TickInput) :
    List WorkerEvent × Rat :=
  match t.img with
  | none => ([], last_ocr)
  | some f =>
    if cfg.enable_ocr && decide (cfg.ocr_interval ≤ t.start - last_ocr) then
      match t.ocrOutcome with
      | Except.ok d =>
        ([WorkerEvent.frame_ready f, WorkerEvent.ocr_ready d], t.start)
      | Except.error _ => ([WorkerEvent.frame_ready f], t.start)
    else ([WorkerEvent.frame_ready f], last_ocr)

/-- One full loop iteration of `CaptureWorker.run`. -/
def runTick (cfg : CaptureWorkerCfg) (last_ocr : Rat) (t : TickInput) :
    TickOutput × Rat :=
  (⟨(tickEvents cfg last_ocr t).1, tickSleep cfg t⟩,
    (tickEvents cfg last_ocr t).2)

/-- The `while self._running` loop of `CaptureWorker.run`, iterated
over the observed tick inputs, threading `last_ocr` (initially 0.0). -/
def runWorker (cfg : CaptureWorkerCfg) (last_ocr : Rat) :
    List TickInput → List TickOutput
  | [] => []
  | t :: ts =>
    (runTick cfg last_ocr t).1 ::
      runWorker cfg (runTick cfg last_ocr t).2 ts

/-- The `enable_ocr` argument `MainWindow.start_worker` passes to the
new `CaptureWorker`:
`self.realtime_chk.isChecked() and not self.hook_mode_chk.isChecked()`.
`MainWindow.on_hook_mode_changed` restarts the running worker through
`start_worker`, so a hook-mode change takes effect via this flag. -/
def start_worker_enable_ocr (realtime_checked hook_mode_checked : Bool) :
    Bool :=
  realtime_checked && !hook_mode_checked

/-- Claim C5: a worker (re)started while hook mode is checked emits no
`ocr_ready` event on any tick, while still emitting `frame_ready`
exactly for the ticks whose capture produced a frame, with the usual
sleep; recognition events stay suppressed until hook mode is disabled
and the worker is restarted again. -/
theorem hook_mode_suppresses_ocr (realtime : Bool)
    (interval_ms ocr_every_ms : Int) (last_ocr : Rat)
    (inputs : List TickInput) :
    runWorker
        (mkCaptureWorker interval_ms ocr_every_ms
          (start_worker_enable_ocr realtime true)) last_ocr inputs
      = inputs.map (fun t =>
          ⟨(match t.img with
            | none => []
            | some f => [WorkerEvent.frame_ready f]),
            tickSleep
              (mkCaptureWorker interval_ms ocr_every_ms
                (start_worker_enable_ocr realtime true)) t⟩) := by
  have hen : (mkCaptureWorker interval_ms ocr_every_ms
      (start_worker_enable_ocr realtime true)).enable_ocr = false := by
    simp [mkCaptureWorker, start_worker_enable_ocr]
  induction inputs generalizing last_ocr with
  | nil => rfl
  | cons t ts ih =>
    cases ht : t.img <;>
      simp [runWorker, runTick, tickEvents, hen, ht, ih]

/-- Claim C6: for every tick, the slept duration is never negative; it
is exactly the remainder of the interval when the work time `dt` is
below the interval, and exactly zero (next tick starts immediately)
when the work time reaches or exceeds the interval; and the loop
produces exactly one tick output per loop iteration — no catch-up
ticks are inserted. -/
theorem runTick_timing (cfg : CaptureWorkerCfg) (last_ocr : Rat)
    (t : TickInput) (ts : List TickInput) :
    (0 ≤ ((runTick cfg last_ocr t).1).sleep) ∧
    (t.dt < cfg.interval →
      ((runTick cfg last_ocr t).1).sleep = cfg.interval - t.dt) ∧
    (cfg.interval ≤ t.dt → ((runTick cfg last_ocr t).1).sleep = 0) ∧
    (runWorker cfg last_ocr ts).length = ts.length := by
  have hlen : ∀ (l : Rat) (ts2 : List TickInput),
      (runWorker cfg l ts2).length = ts2.length := by
    intro l ts2
    induction ts2 generalizing l with
    | nil => rfl
    | cons u us ih => simp [runWorker, ih]
  refine ⟨?_, ?_, ?_, hlen last_ocr ts⟩
  · simp only [runTick, tickSleep]
    split
    · next h => exact le_of_lt h
    · exact le_refl 0
  · intro h
    simp only [runTick, tickSleep]
    rw [if_pos (sub_pos.mpr h)]
  · intro h
    simp only [runTick, tickSleep]
    rw [if_neg (not_lt.mpr (sub_nonpos.mpr h))]

/-- Witness for the C6 theorem: with a 3-second interval, a tick whose
work took 1 second sleeps exactly 2 seconds, and a tick whose work took
5 seconds sleeps 0. -/
theorem runTick_timing_witness :
    ((runTick ⟨true, 3, 5⟩ 0 ⟨0, none, Except.ok [], 1⟩).1).sleep = 2 ∧
    ((runTick ⟨true, 3, 5⟩ 0 ⟨0, none, Except.ok [], 5⟩).1).sleep = 0 := by
  constructor
  · have h :=
      (runTick_timing ⟨true, 3, 5⟩ 0 ⟨0, none, Except.ok [], 1⟩ []).2.1
        (by norm_num)
    rw [h]
    norm_num
  · exact (runTick_timing ⟨true, 3, 5⟩ 0 ⟨0, none, Except.ok [], 5⟩ []).2.2.1
      (by norm_num)

/-! ## Window enumeration (src/capture.py, WindowLister.list_windows) -/

/-- A window as the Win32 enumeration callback sees it: handle,
visibility, and window text. -/
structure WinInfo where
  hwnd : Nat
  visible : Bool
  title : String
deriving DecidableEq, Repr

/-- A window dictionary as the Quartz enumeration yields it: window
number, `kCGWindowName` (defaulted to `""` when missing), and
`kCGWindowOwnerPID` (0 standing for a missing/falsy pid). -/
structure MacWinInfo where
  windowNumber : Nat
  title : String
  ownerPid : Nat
deriving DecidableEq, Repr

/-- The platform branch taken by the module-level `sys.platform`
checks. -/
inductive Platform where
  | windows
  | mac
  | other
deriving DecidableEq, Repr

/-- Python `str.lower()` (ASCII case mapping). -/
def pyLower (s : String) : String :=
  String.mk (s.data.map Char.toLower)

/-- Lexicographic comparison of character lists by code point, which is
how Python compares strings. -/
def charListLe : List Char → List Char → Bool
  | [], _ => true
  | _ :: _, [] => false
  | a :: as, b :: bs =>
    if a < b then true
    else if b < a then false
    else charListLe as bs

/-- The lexicographic comparison is total. -/
theorem charListLe_total : ∀ xs ys : List Char,
    charListLe xs ys || charListLe ys xs := by
  intro xs
  induction xs with
  | nil => intro ys; simp [charListLe]
  | cons a as ih =>
    intro ys
    cases ys with
    | nil => simp [charListLe]
    | cons b bs =>
      by_cases hab : a < b
      · simp [charListLe, hab]
      · by_cases hba : b < a
        · simp [charListLe, hab, hba]
        · simp [charListLe, hab, hba, ih bs]

/-- The lexicographic comparison is transitive. -/
theorem charListLe_trans : ∀ xs ys zs : List Char,
    charListLe xs ys → charListLe ys zs → charListLe xs zs := by
  intro xs
  induction xs with
  | nil => intro ys zs _ _; simp [charListLe]
  | cons a as ih =>
    intro ys zs hxy hyz
    cases ys with
    | nil => simp [charListLe] at hxy
    | cons b bs =>
      cases zs with
      | nil => simp [charListLe] at hyz
      | cons c cs =>
        simp only [charListLe] at hxy hyz ⊢
        rcases lt_trichotomy a b with hab | hab | hab
        · rcases lt_trichotomy b c with hbc | hbc | hbc
          · simp [lt_trans hab hbc]
          · subst hbc; simp [hab]
          · rw [if_neg (lt_asymm hbc), if_pos hbc] at hyz
            simp at hyz
        · subst hab
          rcases lt_trichotomy a c with hac | hac | hac
          · simp [hac]
          · subst hac
            rw [if_neg (lt_irrefl a), if_neg (lt_irrefl a)] at hxy hyz ⊢
            exact ih bs cs hxy hyz
          · rw [if_neg (lt_asymm hac), if_pos hac] at hyz
            simp at hyz
        · rw [if_neg (lt_asymm hab), if_pos hab] at hxy
          simp at hxy

/-- The comparison underlying `wins.sort(key=lambda x: x[1].lower())`:
by lowercased title. -/
def titleLe (a b : Nat × String) : Bool :=
  charListLe (pyLower a.2).data (pyLower b.2).data

/-- Shallow embedding of `WindowLister.list_windows` (src/capture.py).
On Windows the enumeration result is filtered to visible windows with
non-empty text, paired as (hwnd, title) and stably sorted by lowercased
title.  On macOS the Quartz enumeration (or its failure, caught by the
try/except) is filtered to entries with non-empty title and truthy pid
and returned as (pid, title) in enumeration order, unsorted.  Any other
platform yields the empty list. -/
def list_windows (p : Platform) (winEnum : List WinInfo)
    (macEnum : Except Unit (List MacWinInfo)) : List (Nat × String) :=
  match p with
  | Platform.windows =>
    ((winEnum.filter (fun w => w.visible && !(w.title == ""))).map
        (fun w => (w.hwnd, w.title))).mergeSort titleLe
  | Platform.mac =>
    match macEnum with
    | Except.error _ => []
    | Except.ok ws =>
      (ws.filter (fun w => !(w.title == "") && !(w.ownerPid == 0))).map
        (fun w => (w.ownerPid, w.title))
  | Platform.other => []

/-- Claim C7, counterexample: on macOS the enumerated windows are
returned in enumeration order without the case-insensitive title sort —
titles ("b", "A") stay in that order although "A" sorts before "b"
case-insensitively. -/
theorem list_windows_mac_unsorted :
    list_windows Platform.mac [] (Except.ok [⟨1, "b", 5⟩, ⟨2, "A", 6⟩])
        = [(5, "b"), (6, "A")] ∧
    titleLe (5, "b") (6, "A") = false := by
  refine ⟨rfl, by decide⟩

/-- Claim C7 (amended): the Windows branch returns (hwnd, title) pairs
sorted by title case-insensitively and returns the empty sequence for
an empty window set; the macOS branch returns pid/title pairs in
enumeration order (unsorted), returning the empty sequence on an empty
set and on an enumeration failure rather than throwing; any other
platform yields the empty sequence. -/
theorem list_windows_characterization (winEnum : List WinInfo)
    (macEnum : Except Unit (List MacWinInfo)) (ws : List MacWinInfo) :
    List.Pairwise (fun a b => titleLe a b = true)
      (list_windows Platform.windows winEnum macEnum) ∧
    list_windows Platform.windows [] macEnum = [] ∧
    list_windows Platform.mac winEnum (Except.error ()) = [] ∧
    list_windows Platform.mac winEnum (Except.ok []) = [] ∧
    list_windows Platform.mac winEnum (Except.ok ws)
      = (ws.filter (fun w => !(w.title == "") && !(w.ownerPid == 0))).map
          (fun w => (w.ownerPid, w.title)) ∧
    list_windows Platform.other winEnum macEnum = [] := by
  refine ⟨?_, by simp [list_windows], rfl, rfl, rfl, rfl⟩
  have htrans : ∀ a b c : Nat × String,
      titleLe a b → titleLe b c → titleLe a c := by
    intro a b c hab hbc
    exact charListLe_trans _ _ _ hab hbc
  have htotal : ∀ a b : Nat × String, titleLe a b || titleLe b a := by
    intro a b
    exact charListLe_total _ _
  exact List.sorted_mergeSort htrans htotal _

/-! ## Worker stop procedures (src/frida_worker.py and src/main.py) -/

/-- The externally observable steps a stop procedure performs, in
order.  A `wait` records the timeout passed to `QThread.wait`
(`none` = no timeout, wait until the thread finishes). -/
inductive StopAction where
  | set_running_false
  | unload_script
  | detach_session
  | wait (timeout_ms : Option Nat)
deriving DecidableEq, Repr

/-- Shallow embedding of `TextractorWorker.stop` (src/frida_worker.py):
clear the running flag; inside a try/except, unload the script and
detach the session (both set only when `run` attached successfully; if
the unload raises, the detach is skipped and the exception swallowed);
then `self.wait()` — with no timeout argument.  `attached` says whether
`run` reached `script.load()`, `unloadRaises` whether the unload call
raised. -/
def textractor_stop (attached unloadRaises : Bool) : List StopAction :=
  StopAction.set_running_false ::
    ((if attached then
        if unloadRaises then [StopAction.unload_script]
        else [StopAction.unload_script, StopAction.detach_session]
      else []) ++ [StopAction.wait none])

/-- Shallow embedding of `CaptureWorker.stop` (src/main.py): clear the
running flag, then `self.wait(2000)` — a bounded 2000 ms wait. -/
def captureWorker_stop : List StopAction :=
  [StopAction.set_running_false, StopAction.wait (some 2000)]

/-- A stop trace waits boundedly when every wait it performs carries a
timeout. -/
def stopWaitBounded (trace : List StopAction) : Bool :=
  trace.all (fun a =>
    match a with
    | StopAction.wait none => false
    | _ => true)

/-- Claim C9, counterexample: the hook worker's stop ends in a wait
with NO timeout — `self.wait()` — so the wait on the worker thread is
unbounded and stop can block indefinitely when the thread does not
quiesce (e.g. a blocked `frida.attach`). -/
theorem textractor_stop_unbounded_wait :
    stopWaitBounded (textractor_stop true false) = false ∧
    textractor_stop true false
      = [StopAction.set_running_false, StopAction.unload_script,
         StopAction.detach_session, StopAction.wait none] :=
  ⟨rfl, rfl⟩

/-- Claim C9 (amended): `TextractorWorker.stop` first clears the
running flag, tears down whatever script/session the worker attached,
and finally waits for the worker thread WITHOUT a timeout — the wait is
unbounded, not a bounded timeout wait; the capture worker's stop, by
contrast, waits with a 2000 ms timeout. -/
theorem stop_wait_characterization (attached unloadRaises : Bool) :
    (textractor_stop attached unloadRaises).getLast?
        = some (StopAction.wait none) ∧
    (textractor_stop attached unloadRaises).head?
        = some StopAction.set_running_false ∧
    stopWaitBounded (textractor_stop attached unloadRaises) = false ∧
    stopWaitBounded captureWorker_stop = true ∧
    captureWorker_stop
      = [StopAction.set_running_false, StopAction.wait (some 2000)] := by
  cases attached <;> cases unloadRaises <;> exact ⟨rfl, rfl, rfl, rfl, rfl⟩
